import Mathlib

/-!
Verification of the AgroSense plant-disease pipeline
(`app/backend/train.py`, `app/backend/server.py`,
`app/backend/augment_data.py`, `app/backend/dataset.py`)
against its natural-language specification.

The Python code is shallowly embedded: pandas DataFrames become ordered
association lists of named columns, cell values become the inductive
type `Val`, machine floats become rationals, and every random draw of
`random.randint` / `random.uniform` / `DataFrame.sample` becomes an
explicit oracle argument.  Stateful objects (the fitted
`PlantDiseaseModel`, the loaded server artifact) become explicit records
passed to the functions that read them.
-/

namespace AgroSense

/-! ## Part 1: the embedded program (definitions only) -/

/-- A cell value of a DataFrame: a string, a boolean, or a number.
Python floats and ints are both modelled as rationals. -/
inductive Val where
  | str (s : String)
  | bool (b : Bool)
  | num (q : ℚ)
deriving DecidableEq

/-- Whether the value is numeric (pandas would give the column a numeric
dtype, so `select_dtypes(include=["object", "bool"])` would skip it). -/
def Val.isNum : Val → Bool
  | .num _ => true
  | _ => false

/-- Python `astype(str)` on one cell.  The pipeline only applies it to
object/bool columns, whose cells are strings or booleans; the numeric
case mirrors `str()` on a rational for totality. -/
def astypeStr : Val → String
  | .str s => s
  | .bool true => "True"
  | .bool false => "False"
  | .num q => toString q

/-- Lexicographic comparison of character lists: the order in which
`np.unique` sorts strings. -/
def charListLe : List Char → List Char → Bool
  | [], _ => true
  | _ :: _, [] => false
  | a :: as, b :: bs => if a < b then true else if b < a then false else charListLe as bs

/-- Lexicographic string comparison (an executable form of the library
order `· ≤ ·` on `String`; see `strLe_iff`). -/
def strLe (a b : String) : Bool := charListLe a.data b.data

/-- Embeds `sklearn.preprocessing.LabelEncoder.fit`: `classes_` is
`np.unique(values)`, i.e. the distinct values in sorted order. -/
def leFit (xs : List String) : List String :=
  xs.dedup.insertionSort (fun a b => strLe a b = true)

/-- Embeds `LabelEncoder.transform` of one value that is known to be in
`classes_`: its index in the sorted class list. -/
def leIndex (classes : List String) (s : String) : ℤ :=
  (classes.indexOf s : ℤ)

/-- The guarded per-element encoding of `train.py` lines 66–68:
`le.transform([x])[0] if x in le.classes_ else -1`. -/
def encodeGuarded (classes : List String) (s : String) : ℤ :=
  if s ∈ classes then leIndex classes s else -1

/-- Embeds `LabelEncoder.inverse_transform` of one index: the class stored at
that position. -/
def leInverse (classes : List String) (i : ℕ) : Option String :=
  classes.get? i

/-- A DataFrame: an ordered list of named columns; every column holds
the same number of rows. -/
abbrev DF := List (String × List Val)

/-- First-match association lookup on string-keyed lists (Python
`col in df.columns` / `dict[col]`). -/
def vlookup {α : Type} : List (String × α) → String → Option α
  | [], _ => none
  | (k, v) :: rest, c => if k = c then some v else vlookup rest c

/-- From `train.py` line 39: the non-feature columns dropped by `preprocess`. -/
def drop_cols : List String := ["sample_id", "timestamp", "other_notes", "severity"]

/-- From `train.py` line 24. -/
def target_column : String := "label_disease"

/-- A pandas column has object or bool dtype — and is therefore selected
by `select_dtypes(include=["object", "bool"])` — iff not every cell is
numeric. -/
def isCategorical (vs : List Val) : Bool := !vs.all Val.isNum

/-- From `train.py` lines 38–48: drop the non-feature columns, then split off
the target column when it is present. -/
def featureSplit (df : DF) : DF × Option (List Val) :=
  let feature_df := df.filter (fun c => !(decide (c.1 ∈ drop_cols)))
  match vlookup feature_df target_column with
  | some y => (feature_df.filter (fun c => c.1 ≠ target_column), some y)
  | none => (feature_df, none)

/-- From `train.py` lines 55–61 with `fit=True`: every object/bool column is
encoded by a freshly fitted `LabelEncoder`, which is recorded under the
column name (Python dict insertion order = column order). -/
def encodeFit (X : DF) : DF × List (String × List String) :=
  X.foldr
    (fun c acc =>
      if isCategorical c.2 then
        ((c.1, c.2.map fun v =>
            Val.num ((leIndex (leFit (c.2.map astypeStr)) (astypeStr v) : ℤ) : ℚ)) :: acc.1,
         (c.1, leFit (c.2.map astypeStr)) :: acc.2)
      else (c :: acc.1, acc.2))
    ([], [])

/-- From `train.py` lines 55–68 with `fit=False`: an object/bool column whose
name has a stored encoder is encoded element-wise with the unseen-value
guard; a column with no stored encoder is left untouched. -/
def encodeInfer (encoders : List (String × List String)) (X : DF) : DF :=
  X.map fun c =>
    if isCategorical c.2 then
      match vlookup encoders c.1 with
      | some classes =>
          (c.1, c.2.map fun v => Val.num ((encodeGuarded classes (astypeStr v) : ℤ) : ℚ))
      | none => c
    else c

/-- The preprocessing state captured by a fit: the fitted encoders and
the feature-column order (`train.py` lines 20–23, 51–52, 61). -/
structure FitState where
  label_encoders : List (String × List String)
  feature_columns : List String
deriving DecidableEq

/-- Embeds `preprocess(df, fit=True)` up to (and excluding) the scaler: the
encoded feature matrix, the target column, and the captured state.  The
`StandardScaler` fit statistics involve a square root and are kept
abstract; scaling itself is `scalerTransform` below. -/
def preprocessFit (df : DF) : DF × Option (List Val) × FitState :=
  let p := featureSplit df
  let e := encodeFit p.1
  (e.1, p.2, ⟨e.2, p.1.map Prod.fst⟩)

/-- Embeds `preprocess(df, fit=False)` up to the scaler. -/
def preprocessInfer (st : FitState) (df : DF) : DF × Option (List Val) :=
  let p := featureSplit df
  (encodeInfer st.label_encoders p.1, p.2)

/-- Numpy's cast of a cell to float, as performed by
`StandardScaler.transform`: booleans cast to 0/1, strings cannot be cast
(numpy raises; modelled by `none`). -/
def toFloat? : Val → Option ℚ
  | .num q => some q
  | .bool b => some (if b then 1 else 0)
  | .str _ => none

/-- One cell standardized with the fitted per-column mean and scale:
`(x - mean) / scale`. -/
def scaleCell (mean scale : ℚ) (v : Val) : Option ℚ :=
  (toFloat? v).map fun q => (q - mean) / scale

/-- Embeds `StandardScaler.transform` on a whole matrix; the fitted statistics
(mean, scale), captured once at training time, are aligned positionally
with the columns.  The fitted scale is the square root of the training
variance, irrational in general, so the statistics are parameters. -/
def scalerTransform (stats : List (ℚ × ℚ)) (X : DF) : List (List (Option ℚ)) :=
  List.zipWith (fun c ms => c.2.map (scaleCell ms.1 ms.2)) X stats

/-- A row selection: the chosen row indices select rows from every
column.  `train_test_split` shuffles and stratifies; which indices land
in which part is the oracle. -/
def selectRows (X : DF) (idxs : List ℕ) : DF :=
  X.map fun c => (c.1, idxs.filterMap fun i => c.2.get? i)

/-- Embeds `main`, lines 163–186, up to the classifier: `preprocess(df,
fit=True)` runs on the full dataset, and only afterwards does
`train_test_split` divide the (already encoded) rows into the train and
test parts that feed the grid search and the evaluation. -/
def mainPipeline (df : DF) (trainIdxs testIdxs : List ℕ) : FitState × DF × DF :=
  let r := preprocessFit df
  (r.2.2, selectRows r.1 trainIdxs, selectRows r.1 testIdxs)

/-- The property claimed by the spec for C1: the encoders fitted during
a run of `main` coincide with the encoders obtained by fitting the
pipeline on the train-split rows only. -/
def fitUsesOnlyTrainRows (df : DF) (trainIdxs testIdxs : List ℕ) : Prop :=
  (mainPipeline df trainIdxs testIdxs).1.label_encoders
    = (preprocessFit (selectRows df trainIdxs)).2.2.label_encoders

/-- A concrete five-row dataset with one categorical feature column in
which every row carries a distinct value. -/
def df5 : DF :=
  [("leaf_color", [Val.str "A", Val.str "B", Val.str "C", Val.str "D", Val.str "E"]),
   ("label_disease", [Val.str "X", Val.str "X", Val.str "X", Val.str "X", Val.str "X"])]

/-- A single-row DataFrame, as built by `pd.DataFrame([input_data])`
from the request body: the mapping's keys in order, one cell each. -/
abbrev Row := List (String × Val)

/-- The one-row frame seen as a `DF` with singleton columns. -/
def rowToDF (r : Row) : DF := r.map fun cv => (cv.1, [cv.2])

/-- From `server.py` lines 124–127: for each feature column absent from the
frame, append that column with numeric value 0. -/
def ensureColumns (df : Row) (fcols : List String) : Row :=
  fcols.foldl (fun d c => if (vlookup d c).isSome then d else d ++ [(c, Val.num 0)]) df

/-- From `server.py` line 130: `df = df[feature_columns]` — select exactly
the feature columns, in training order.  (Selection raises on a missing
column; lines 124–127 guarantee presence, so the `getD` default is
unreachable.) -/
def selectColumns (df : Row) (fcols : List String) : Row :=
  fcols.map fun c => (c, (vlookup df c).getD (Val.num 0))

/-- From `server.py` lines 132–139: for every stored encoder whose column is
present in the frame, run `encoder.transform` on the cell after
`astype(str)`; the `ValueError` a transform of an unseen value raises
is caught and the cell is set to -1.  `encodeGuarded` is exactly this
try/except on a single cell. -/
def serverEncode (encoders : List (String × List String)) (df : Row) : Row :=
  encoders.foldl
    (fun d ce =>
      if (vlookup d ce.1).isSome then
        d.map fun cv =>
          if cv.1 = ce.1 then (cv.1, Val.num ((encodeGuarded ce.2 (astypeStr cv.2) : ℤ) : ℚ))
          else cv
      else d)
    df

/-- Embeds `preprocess_input` (`server.py` lines 114–144): build the one-row
frame, fill missing feature columns with 0, select the feature columns
in training order, encode with the stored encoders, scale with the
stored scaler. -/
def preprocess_input (input : Row) (st : FitState) (stats : List (ℚ × ℚ)) :
    List (List (Option ℚ)) :=
  scalerTransform stats
    (rowToDF (serverEncode st.label_encoders
      (selectColumns (ensureColumns input st.feature_columns) st.feature_columns)))

/-- The per-cell effect of the serving-side encoding loop, proved equal
to `serverEncode` in `serverEncode_eq_map`: a cell in a column with a
stored encoder is transformed (with the caught −1 fallback); any other
cell is untouched. -/
def encodeCellByLookup (encs : List (String × List String)) (c : String) (v : Val) : Val :=
  match vlookup encs c with
  | some classes => Val.num ((encodeGuarded classes (astypeStr v) : ℤ) : ℚ)
  | none => v

/-- The payload of a FastAPI `HTTPException`. -/
structure HTTPExceptionE where
  status_code : ℕ
  detail : String
deriving DecidableEq

/-- The fitted classifier inside the artifact, kept abstract: its class
list, its predicted label and its probability vector for a feature
matrix. -/
structure Classifier where
  classes : List String
  predict : List (List (Option ℚ)) → String
  predict_proba : List (List (Option ℚ)) → List ℚ

/-- The loaded `model_data` artifact: classifier, label encoders and
feature-column order (as a `FitState`), and the scaler statistics. -/
structure ModelData where
  model : Classifier
  st : FitState
  stats : List (ℚ × ℚ)

/-- One treatment entry of `treatments.json`, plus the generic fallback
of `server.py` lines 173–177. -/
structure TreatmentInfo where
  treatment : String
  prevention : String
  chemicals : List String
deriving DecidableEq

def fallbackTreatment : TreatmentInfo :=
  { treatment := "No treatment information available."
    prevention := "General preventive measures recommended."
    chemicals := [] }

/-- The body of a successful `/predict` response. -/
structure PredictionResponseE where
  prediction : String
  confidence : ℚ
  all_probabilities : List (String × ℚ)
  treatment : TreatmentInfo
  timestamp : String

/-- Embeds `POST /predict` (`server.py` lines 151–189): with no loaded model
the handler raises `HTTPException(500, "Model not loaded")` before any
prediction work; otherwise it preprocesses, predicts, takes the maximal
class probability as the confidence (probabilities are non-negative, so
the fold from 0 is Python's `max`), and attaches the treatment entry or
the generic fallback.  `now` stands for `datetime.now`. -/
def predict_disease (model_data : Option ModelData)
    (treatments : List (String × TreatmentInfo)) (input : Row) (now : String) :
    Except HTTPExceptionE PredictionResponseE :=
  match model_data with
  | none => .error ⟨500, "Model not loaded"⟩
  | some md =>
    let X := preprocess_input input md.st md.stats
    let prediction := md.model.predict X
    let probabilities := md.model.predict_proba X
    .ok
      { prediction := prediction
        confidence := probabilities.foldl max 0
        all_probabilities := md.model.classes.zip probabilities
        treatment := (vlookup treatments prediction).getD fallbackTreatment
        timestamp := now }

/-- Embeds `GET /diseases` (`server.py` lines 308–317): with no loaded model
the handler raises `HTTPException(500, "Model not loaded")`; otherwise
it returns the classifier's class list and its size. -/
def get_diseases (model_data : Option ModelData) :
    Except HTTPExceptionE (List String × ℕ) :=
  match model_data with
  | none => .error ⟨500, "Model not loaded"⟩
  | some md => .ok (md.model.classes, md.model.classes.length)

/-- One CSV row of the dataset, with exactly the fields
`generate_sample` emits (`dataset.py` lines 85–103). -/
structure Sample where
  sample_id : String
  timestamp : String
  crop_type : String
  plant_age_days : ℤ
  location_region : String
  soil_ph : ℚ
  soil_moisture_pct : ℚ
  ambient_temperature_c : ℚ
  ambient_humidity_pct : ℚ
  leaf_color : String
  lesion_present : Bool
  lesion_count : ℤ
  spot_size_mm : ℚ
  nutrient_deficiency_signs : String
  other_notes : String
  label_disease : String
  severity : String
deriving DecidableEq, Inhabited

/-- Python `round(x, n)` on the rational model of a float. -/
def roundTo (n : ℕ) (q : ℚ) : ℚ := ((round (q * (10 ^ n : ℚ)) : ℤ) : ℚ) / (10 ^ n : ℚ)

/-- Python f-string `{n:06d}`: decimal digits left-padded with zeros to
at least six characters. -/
def pad6 (n : ℕ) : String :=
  String.mk (List.replicate (6 - (toString n).length) '0') ++ toString n

/-- The random draws consumed by one iteration of the augmentation loop
(`augment_data.py` lines 23–47): the sampled base-row position, the
fresh timestamp, and the jitters of `random.randint(-10,10)`,
`random.uniform(-0.3,0.3)`, `random.uniform(-5,5)`,
`random.uniform(-2,2)`, `random.uniform(-5,5)`, `random.randint(-3,3)`
and `random.uniform(-1,1)`, in call order. -/
structure AugRand where
  baseIdx : ℕ
  timestamp : String
  ageDelta : ℤ
  phDelta : ℚ
  moistDelta : ℚ
  tempDelta : ℚ
  humDelta : ℚ
  lesionDelta : ℤ
  spotDelta : ℚ

/-- The body of the augmentation loop (`augment_data.py` lines 23–47)
at iteration `i`: copy the sampled base row, give it the next sample id
and a fresh timestamp, jitter the numeric fields with the clamps of
lines 36–40, and jitter the lesion fields only when the base row has
`lesion_present`. -/
def augmentOne (original_size i : ℕ) (base : Sample) (r : AugRand) : Sample :=
  { base with
    sample_id := "SAMPLE_" ++ pad6 (original_size + i + 1)
    timestamp := r.timestamp
    plant_age_days := max 20 (base.plant_age_days + r.ageDelta)
    soil_ph := roundTo 2 (max (11 / 2) (min 8 (base.soil_ph + r.phDelta)))
    soil_moisture_pct := roundTo 1 (max 15 (min 85 (base.soil_moisture_pct + r.moistDelta)))
    ambient_temperature_c := roundTo 1 (max 15 (min 38 (base.ambient_temperature_c + r.tempDelta)))
    ambient_humidity_pct := roundTo 1 (max 30 (min 95 (base.ambient_humidity_pct + r.humDelta)))
    lesion_count := if base.lesion_present
      then max 0 (base.lesion_count + r.lesionDelta) else base.lesion_count
    spot_size_mm := if base.lesion_present
      then roundTo 1 (max 0 (base.spot_size_mm + r.spotDelta)) else base.spot_size_mm }

/-- Embeds `augment_dataset` (`augment_data.py` lines 7–58).  When the input
already has at least `target_size` rows the function returns early and
writes no output file (`none`).  Otherwise the written dataset is the
original rows followed by the `target_size - len(df)` generated rows.
`rand i` supplies the draws of iteration `i`; `df.sample(n=1)` is the
row at position `(rand i).baseIdx` modulo the row count. -/
def augment_dataset (df : List Sample) (target_size : ℕ) (rand : ℕ → AugRand) :
    Option (List Sample) :=
  if df.length ≥ target_size then none
  else
    some (df ++ (List.range (target_size - df.length)).map fun i =>
      augmentOne df.length i (df.getD ((rand i).baseIdx % df.length) default) (rand i))

/-- A concrete healthy row used by the witnesses. -/
def sampleA : Sample :=
  { sample_id := "SAMPLE_000001"
    timestamp := "2024-01-01T00:00:00"
    crop_type := "Tomato"
    plant_age_days := 60
    location_region := "North"
    soil_ph := 13 / 2
    soil_moisture_pct := 50
    ambient_temperature_c := 25
    ambient_humidity_pct := 60
    leaf_color := "Green"
    lesion_present := false
    lesion_count := 0
    spot_size_mm := 0
    nutrient_deficiency_signs := "None"
    other_notes := ""
    label_disease := "Healthy"
    severity := "None" }

/-- From `dataset.py` lines 8–34, in Python dict insertion order. -/
def CROPS_DISEASES : List (String × List String) :=
  [("Tomato", ["Healthy", "Early_Blight", "Late_Blight", "Leaf_Mold",
      "Septoria_Leaf_Spot", "Bacterial_Spot", "Yellow_Leaf_Curl_Virus"]),
   ("Potato", ["Healthy", "Early_Blight", "Late_Blight", "Bacterial_Wilt"]),
   ("Wheat", ["Healthy", "Rust", "Powdery_Mildew", "Septoria_Tritici_Blotch"]),
   ("Rice", ["Healthy", "Bacterial_Leaf_Blight", "Brown_Spot", "Leaf_Smut"]),
   ("Corn", ["Healthy", "Northern_Leaf_Blight", "Gray_Leaf_Spot", "Common_Rust"]),
   ("Cotton", ["Healthy", "Bacterial_Blight", "Fusarium_Wilt", "Verticillium_Wilt"]),
   ("Soybean", ["Healthy", "Frogeye_Leaf_Spot", "Downy_Mildew", "Bacterial_Blight"]),
   ("Pepper", ["Healthy", "Bacterial_Spot", "Phytophthora_Blight"])]

/-- From `dataset.py` line 36. -/
def REGIONS : List String :=
  ["North", "South", "East", "West", "Central", "Northeast", "Northwest",
   "Southeast", "Southwest"]

/-- From `dataset.py` lines 38–41. -/
def LEAF_COLORS_HEALTHY : List String := ["Dark_Green", "Green"]

def LEAF_COLORS_DISEASED : List String :=
  ["Yellow", "Yellow_Green", "Brown", "Light_Green", "Pale_Green"]

/-- From `dataset.py` lines 43–45. -/
def NUTRIENT_DEFICIENCY : List String :=
  ["None", "Nitrogen", "Phosphorus", "Potassium", "Magnesium", "Iron", "Calcium"]

/-- From `dataset.py` line 47. -/
def SEVERITY : List String := ["Mild", "Moderate", "Severe"]

/-- Embeds `random.uniform(lo, hi)`: an oracle-supplied rational confined to
the guaranteed range. -/
def uniformIn (lo hi q : ℚ) : ℚ := max lo (min hi q)

/-- Embeds `random.choice(xs)`: the element at the oracle-supplied position
(modulo the length; every list passed is nonempty, so the fallback is
unreachable). -/
def choice (xs : List String) (i : ℕ) : String := xs.getD (i % xs.length) ""

/-- The random draws of one `generate_sample` call, one field per call
site, indices taken modulo their range. -/
structure GenRand where
  cropIdx : ℕ
  diseaseIdx : ℕ
  genTimestamp : String
  plantAge : ℕ
  regionIdx : ℕ
  soilPh : ℚ
  soilMoisture : ℚ
  temperature : ℚ
  humidity : ℚ
  leafColorIdx : ℕ
  lesionChoiceIdx : ℕ
  lesionCount : ℕ
  spotSize : ℚ
  nutrientIdx : ℕ
  nutrientInnerIdx : ℕ
  severityIdx : ℕ

/-- Embeds `random.choice(list(CROPS_DISEASES.keys()))` (`dataset.py` line 51). -/
def genCrop (r : GenRand) : String :=
  (CROPS_DISEASES.map Prod.fst).getD (r.cropIdx % CROPS_DISEASES.length) ""

/-- Embeds `random.choice(CROPS_DISEASES[crop_type])` (`dataset.py` line 52). -/
def genDisease (r : GenRand) : String :=
  let diseases := (vlookup CROPS_DISEASES (genCrop r)).getD []
  diseases.getD (r.diseaseIdx % diseases.length) ""

/-- Embeds `generate_sample` (`dataset.py` lines 49–103), the random draws
supplied by `r`. -/
def generate_sample (sample_id : ℕ) (r : GenRand) : Sample :=
  if genDisease r = "Healthy" then
    { sample_id := "SAMPLE_" ++ pad6 sample_id
      timestamp := r.genTimestamp
      crop_type := genCrop r
      plant_age_days := (20 : ℤ) + (r.plantAge % 131 : ℕ)
      location_region := choice REGIONS r.regionIdx
      soil_ph := roundTo 2 (uniformIn (11 / 2) 8 r.soilPh)
      soil_moisture_pct := roundTo 1 (uniformIn 15 85 r.soilMoisture)
      ambient_temperature_c := roundTo 1 (uniformIn 15 38 r.temperature)
      ambient_humidity_pct := roundTo 1 (uniformIn 30 95 r.humidity)
      leaf_color := choice LEAF_COLORS_HEALTHY r.leafColorIdx
      lesion_present := false
      lesion_count := 0
      spot_size_mm := 0
      nutrient_deficiency_signs := choice
        ["None", "None", "None", choice (NUTRIENT_DEFICIENCY.drop 1) r.nutrientInnerIdx]
        r.nutrientIdx
      other_notes := ""
      label_disease := genDisease r
      severity := "None" }
  else
    { sample_id := "SAMPLE_" ++ pad6 sample_id
      timestamp := r.genTimestamp
      crop_type := genCrop r
      plant_age_days := (20 : ℤ) + (r.plantAge % 131 : ℕ)
      location_region := choice REGIONS r.regionIdx
      soil_ph := roundTo 2 (uniformIn (11 / 2) 8 r.soilPh)
      soil_moisture_pct := roundTo 1 (uniformIn 15 85 r.soilMoisture)
      ambient_temperature_c := roundTo 1 (uniformIn 15 38 r.temperature)
      ambient_humidity_pct := roundTo 1 (uniformIn 30 95 r.humidity)
      leaf_color := choice (LEAF_COLORS_DISEASED ++ LEAF_COLORS_HEALTHY) r.leafColorIdx
      lesion_present := [true, true, false].getD (r.lesionChoiceIdx % 3) false
      lesion_count := if [true, true, false].getD (r.lesionChoiceIdx % 3) false
        then (r.lesionCount % 26 : ℕ) else 0
      spot_size_mm := if [true, true, false].getD (r.lesionChoiceIdx % 3) false
        then roundTo 1 (uniformIn 0 15 r.spotSize) else 0
      nutrient_deficiency_signs := choice NUTRIENT_DEFICIENCY r.nutrientIdx
      other_notes := ""
      label_disease := genDisease r
      severity := choice SEVERITY r.severityIdx }

/-! ## Part 2: the verification (theorems only) -/

theorem charListLe_iff : ∀ as bs : List Char, charListLe as bs = true ↔ ¬ bs < as
  | [], bs => iff_of_true rfl fun h => nomatch h
  | a :: as, [] => iff_of_false (by simp [charListLe]) fun h => h List.Lex.nil
  | a :: as, b :: bs => by
      by_cases hab : a < b
      · refine iff_of_true (by simp [charListLe, hab]) fun h => ?_
        cases h with
        | cons h' => exact absurd hab (lt_irrefl _)
        | rel h' => exact absurd h' (asymm hab)
      · by_cases hba : b < a
        · exact iff_of_false (by simp [charListLe, hab, hba]) fun h => h (List.Lex.rel hba)
        · have hEq : a = b := le_antisymm (not_lt.mp hba) (not_lt.mp hab)
          subst hEq
          have hstep : charListLe (a :: as) (a :: bs) = charListLe as bs := by
            simp [charListLe]
          rw [hstep, charListLe_iff as bs]
          constructor
          · intro h hlt
            cases hlt with
            | cons h3 => exact h h3
            | rel h' => exact absurd h' (lt_irrefl _)
          · intro h hlt
            exact h (List.Lex.cons hlt)

theorem strLe_iff (a b : String) : strLe a b = true ↔ a ≤ b := by
  rw [String.le_iff_toList_le, ← not_lt]
  exact charListLe_iff a.data b.data

instance : IsTotal String (fun a b => strLe a b = true) :=
  ⟨fun a b => by
    rw [strLe_iff, strLe_iff]
    exact le_total a b⟩

instance : IsTrans String (fun a b => strLe a b = true) :=
  ⟨fun a b c hab hbc => by
    rw [strLe_iff] at *
    exact le_trans hab hbc⟩

theorem leFit_sorted_le (xs : List String) : (leFit xs).Sorted (· ≤ ·) :=
  (List.sorted_insertionSort _ _).imp fun h => (strLe_iff _ _).mp h

theorem leFit_perm_dedup (xs : List String) : List.Perm (leFit xs) xs.dedup :=
  List.perm_insertionSort _ _

theorem leFit_nodup (xs : List String) : (leFit xs).Nodup :=
  (leFit_perm_dedup xs).nodup_iff.mpr (List.nodup_dedup xs)

theorem leFit_sorted (xs : List String) : (leFit xs).Sorted (· < ·) :=
  (leFit_sorted_le xs).lt_of_le (leFit_nodup xs)

theorem mem_leFit {s : String} {xs : List String} : s ∈ leFit xs ↔ s ∈ xs := by
  rw [(leFit_perm_dedup xs).mem_iff, List.mem_dedup]

theorem encodeFit_cons (name : String) (vals : List Val) (rest : DF) :
    encodeFit ((name, vals) :: rest) =
      if isCategorical vals then
        ((name, vals.map fun v =>
            Val.num ((leIndex (leFit (vals.map astypeStr)) (astypeStr v) : ℤ) : ℚ)) ::
              (encodeFit rest).1,
         (name, leFit (vals.map astypeStr)) :: (encodeFit rest).2)
      else ((name, vals) :: (encodeFit rest).1, (encodeFit rest).2) := rfl

/-- The encoder recorded by a fit for the first column named `c` is the
`LabelEncoder` fitted on exactly that column's values. -/
theorem encodeFit_lookup (X : DF) (c : String) (vs : List Val)
    (h : vlookup X c = some vs) (hcat : isCategorical vs = true) :
    vlookup (encodeFit X).2 c = some (leFit (vs.map astypeStr)) := by
  induction X with
  | nil => simp [vlookup] at h
  | cons col rest ih =>
    obtain ⟨name, vals⟩ := col
    rw [encodeFit_cons]
    by_cases hn : name = c
    · subst hn
      rw [vlookup, if_pos rfl] at h
      obtain rfl : vals = vs := Option.some.inj h
      rw [if_pos hcat]
      simp [vlookup]
    · rw [vlookup, if_neg hn] at h
      by_cases hc : isCategorical vals
      · rw [if_pos hc]
        simpa [vlookup, hn] using ih h
      · rw [if_neg hc]
        exact ih h

/-- Claim C1 is false on the code: in `main` the feature pipeline is
fitted by `preprocess(df, fit=True)` *before* `train_test_split` runs,
so the fit sees every row.  On `df5`, with rows 0–3 as the train split
and row 4 held out (any 4-vs-1 split gives the same outcome, since all
five values are distinct), the fitted `leaf_color` vocabulary is
`["A","B","C","D","E"]`, while fitting on the train split only would
give `["A","B","C","D"]`. -/
theorem C1_counterexample : ¬ fitUsesOnlyTrainRows df5 [0, 1, 2, 3] [4] := by
  unfold fitUsesOnlyTrainRows
  decide

/-- Claim C1, amended: the Trainer fits the feature pipeline on the
full dataset before the stratified train/test split, so the rows of the
held-out test split do take part in the fit.  Formally: whatever
train/test index choice the split makes, the encoder fitted for a
categorical feature column is the label encoder of that column's values
over *all* rows, and hence every value occurring in any row — test rows
included — enters the fitted vocabulary. -/
theorem C1_fit_on_full_dataset (df : DF) (trainIdxs testIdxs : List ℕ)
    (c : String) (vs : List Val) (v : Val)
    (hcol : vlookup (featureSplit df).1 c = some vs)
    (hcat : isCategorical vs = true) (hv : v ∈ vs) :
    vlookup (mainPipeline df trainIdxs testIdxs).1.label_encoders c
        = some (leFit (vs.map astypeStr))
      ∧ astypeStr v ∈ leFit (vs.map astypeStr) := by
  constructor
  · show vlookup (encodeFit (featureSplit df).1).2 c = _
    exact encodeFit_lookup _ _ _ hcol hcat
  · rw [mem_leFit]
    exact List.mem_map_of_mem _ hv

/-- Witness for `C1_fit_on_full_dataset` at `df5`, for the value
`"E"` that occurs only in the held-out row 4. -/
theorem C1_fit_on_full_dataset_witness :
    vlookup (mainPipeline df5 [0, 1, 2, 3] [4]).1.label_encoders "leaf_color"
        = some (leFit ([Val.str "A", Val.str "B", Val.str "C", Val.str "D",
            Val.str "E"].map astypeStr))
      ∧ astypeStr (Val.str "E") ∈ leFit ([Val.str "A", Val.str "B", Val.str "C",
          Val.str "D", Val.str "E"].map astypeStr) :=
  C1_fit_on_full_dataset df5 [0, 1, 2, 3] [4] "leaf_color"
    [Val.str "A", Val.str "B", Val.str "C", Val.str "D", Val.str "E"] (Val.str "E")
    (by decide) (by decide) (by decide)

/-- C4: a fitted encoder's class list is the sorted duplicate-free list
of the training-time values, and the encoder assigns to the `i`-th
sorted distinct value the integer `i` (so the `k` distinct values get
exactly `0..k-1` in alphabetical order).  In particular fitting on a
`leaf_color` column with values Green and Yellow maps Green to 0 and
Yellow to 1. -/
theorem C4_sorted_label_encoding (xs : List String) (i : ℕ)
    (h : i < (leFit xs).length) :
    (leFit xs).Sorted (· < ·)
      ∧ (leFit xs).Nodup
      ∧ (∀ s, s ∈ leFit xs ↔ s ∈ xs)
      ∧ leIndex (leFit xs) ((leFit xs).get ⟨i, h⟩) = (i : ℤ)
      ∧ leFit ["Green", "Yellow", "Green", "Yellow", "Green", "Yellow"]
          = ["Green", "Yellow"]
      ∧ leIndex (leFit ["Green", "Yellow", "Green", "Yellow", "Green", "Yellow"]) "Green" = 0
      ∧ leIndex (leFit ["Green", "Yellow", "Green", "Yellow", "Green", "Yellow"]) "Yellow" = 1 := by
  refine ⟨leFit_sorted xs, leFit_nodup xs, fun s => mem_leFit, ?_, by decide, by decide, by decide⟩
  have := List.indexOf_getElem (leFit_nodup xs) i h
  rw [leIndex, List.get_eq_getElem, this]

/-- Witness for `C4_sorted_label_encoding`: the second sorted class of
the Green/Yellow fit is Yellow and it encodes to 1. -/
theorem C4_sorted_label_encoding_witness :
    (leFit ["Yellow", "Green"]).Sorted (· < ·)
      ∧ (leFit ["Yellow", "Green"]).Nodup
      ∧ (∀ s, s ∈ leFit ["Yellow", "Green"] ↔ s ∈ ["Yellow", "Green"])
      ∧ leIndex (leFit ["Yellow", "Green"])
          ((leFit ["Yellow", "Green"]).get ⟨1, by decide⟩) = (1 : ℤ)
      ∧ leFit ["Green", "Yellow", "Green", "Yellow", "Green", "Yellow"]
          = ["Green", "Yellow"]
      ∧ leIndex (leFit ["Green", "Yellow", "Green", "Yellow", "Green", "Yellow"]) "Green" = 0
      ∧ leIndex (leFit ["Green", "Yellow", "Green", "Yellow", "Green", "Yellow"]) "Yellow" = 1 :=
  C4_sorted_label_encoding ["Yellow", "Green"] 1 (by decide)

/-- C5: on the training vocabulary the fitted label encoding is a
bijection onto `0..k-1`, and encoding followed by the inverse lookup
(`inverse_transform`) reproduces the original value: the encoder sends
a seen value to its in-range class index, distinct seen values to
distinct indices, every index below `k` is hit, and the class stored at
a seen value's index is that value itself. -/
theorem C5_encoding_roundtrip (xs : List String) (s : String) (hs : s ∈ xs) :
    encodeGuarded (leFit xs) s = ((leFit xs).indexOf s : ℤ)
      ∧ (leFit xs).indexOf s < (leFit xs).length
      ∧ leInverse (leFit xs) ((leFit xs).indexOf s) = some s
      ∧ (∀ t, t ∈ xs → (leFit xs).indexOf t = (leFit xs).indexOf s → t = s)
      ∧ (∀ i, i < (leFit xs).length → ∃ t, t ∈ xs ∧ (leFit xs).indexOf t = i) := by
  have hmem : s ∈ leFit xs := mem_leFit.mpr hs
  refine ⟨?_, List.indexOf_lt_length.mpr hmem, List.indexOf_get? hmem, ?_, ?_⟩
  · rw [encodeGuarded, if_pos hmem, leIndex]
  · intro t ht hidx
    exact (List.indexOf_inj (mem_leFit.mpr ht) hmem).mp hidx
  · intro i hi
    refine ⟨(leFit xs).get ⟨i, hi⟩, ?_, ?_⟩
    · exact mem_leFit.mp (List.get_mem _ _ _)
    · rw [List.get_eq_getElem]
      exact List.indexOf_getElem (leFit_nodup xs) i hi

/-- Witness for `C5_encoding_roundtrip` on the training column
`["Yellow", "Green", "Yellow"]` at the seen value `"Yellow"`. -/
theorem C5_encoding_roundtrip_witness :
    encodeGuarded (leFit ["Yellow", "Green", "Yellow"]) "Yellow"
        = ((leFit ["Yellow", "Green", "Yellow"]).indexOf "Yellow" : ℤ)
      ∧ (leFit ["Yellow", "Green", "Yellow"]).indexOf "Yellow"
          < (leFit ["Yellow", "Green", "Yellow"]).length
      ∧ leInverse (leFit ["Yellow", "Green", "Yellow"])
          ((leFit ["Yellow", "Green", "Yellow"]).indexOf "Yellow") = some "Yellow"
      ∧ (∀ t, t ∈ ["Yellow", "Green", "Yellow"] →
          (leFit ["Yellow", "Green", "Yellow"]).indexOf t
            = (leFit ["Yellow", "Green", "Yellow"]).indexOf "Yellow" → t = "Yellow")
      ∧ (∀ i, i < (leFit ["Yellow", "Green", "Yellow"]).length →
          ∃ t, t ∈ ["Yellow", "Green", "Yellow"]
            ∧ (leFit ["Yellow", "Green", "Yellow"]).indexOf t = i) :=
  C5_encoding_roundtrip ["Yellow", "Green", "Yellow"] "Yellow" (by decide)

theorem vlookup_isSome_iff {α : Type} (df : List (String × α)) (c : String) :
    (vlookup df c).isSome ↔ c ∈ df.map Prod.fst := by
  induction df with
  | nil => simp [vlookup]
  | cons cv rest ih =>
    by_cases h : cv.1 = c
    · simp [vlookup, h]
    · simp [vlookup, h, ih, Ne.symm h]

theorem vlookup_eq_none_iff {α : Type} (df : List (String × α)) (c : String) :
    vlookup df c = none ↔ c ∉ df.map Prod.fst := by
  rw [← vlookup_isSome_iff, Option.not_isSome_iff_eq_none]

theorem vlookup_isSome_of_mem {α : Type} {df : List (String × α)} {cv : String × α}
    (h : cv ∈ df) : (vlookup df cv.1).isSome :=
  (vlookup_isSome_iff df cv.1).mpr (List.mem_map_of_mem Prod.fst h)

theorem vlookup_append {α : Type} (df l : List (String × α)) (c : String) :
    vlookup (df ++ l) c = match vlookup df c with
      | some v => some v
      | none => vlookup l c := by
  induction df with
  | nil => simp [vlookup]
  | cons cv rest ih =>
    by_cases h : cv.1 = c
    · simp [vlookup, h]
    · simp [vlookup, h, ih]

theorem vlookup_map_valued {α β : Type} (g : String → α → β)
    (df : List (String × α)) (c : String) :
    vlookup (df.map fun cv => (cv.1, g cv.1 cv.2)) c = (vlookup df c).map (g c) := by
  induction df with
  | nil => simp [vlookup]
  | cons cv rest ih =>
    by_cases h : cv.1 = c
    · subst h
      simp [vlookup]
    · simp [vlookup, h, ih]

theorem ensureColumns_of_present (fcols : List String) (df : Row)
    (h : ∀ c ∈ fcols, (vlookup df c).isSome) : ensureColumns df fcols = df := by
  induction fcols generalizing df with
  | nil => rfl
  | cons c cs ih =>
    rw [ensureColumns, List.foldl_cons, if_pos (h c (List.mem_cons_self c cs))]
    exact ih df fun d hd => h d (List.mem_cons_of_mem c hd)

theorem ensureColumns_preserves_some (fcols : List String) (df : Row)
    {c : String} {v : Val} (h : vlookup df c = some v) :
    vlookup (ensureColumns df fcols) c = some v := by
  induction fcols generalizing df with
  | nil => exact h
  | cons c0 cs ih =>
    rw [ensureColumns, List.foldl_cons]
    by_cases h0 : (vlookup df c0).isSome
    · rw [if_pos h0]
      exact ih df h
    · rw [if_neg h0]
      refine ih _ ?_
      rw [vlookup_append, h]

theorem ensureColumns_lookup_missing (fcols : List String) (df : Row)
    {c : String} (hmiss : vlookup df c = none) (hc : c ∈ fcols) :
    vlookup (ensureColumns df fcols) c = some (Val.num 0) := by
  induction fcols generalizing df with
  | nil => cases hc
  | cons c0 cs ih =>
    rw [ensureColumns, List.foldl_cons]
    by_cases he : c0 = c
    · subst he
      rw [if_neg (by rw [hmiss]; simp)]
      refine ensureColumns_preserves_some cs _ ?_
      rw [vlookup_append, hmiss]
      simp [vlookup]
    · have hc' : c ∈ cs := by
        cases hc with
        | head => exact absurd rfl he
        | tail _ h => exact h
      by_cases h0 : (vlookup df c0).isSome
      · rw [if_pos h0]
        exact ih df hmiss hc'
      · rw [if_neg h0]
        refine ih _ ?_ hc'
        rw [vlookup_append, hmiss, vlookup, if_neg he]
        rfl

theorem selectColumns_keys (df : Row) (fcols : List String) :
    (selectColumns df fcols).map Prod.fst = fcols := by
  simp [selectColumns, List.map_map, Function.comp_def]

theorem vlookup_selectColumns (df : Row) (fcols : List String) {c : String}
    (hc : c ∈ fcols) :
    vlookup (selectColumns df fcols) c = some ((vlookup df c).getD (Val.num 0)) := by
  induction fcols with
  | nil => cases hc
  | cons c0 cs ih =>
    by_cases he : c0 = c
    · subst he
      simp [selectColumns, vlookup]
    · have hc' : c ∈ cs := by
        cases hc with
        | head => exact absurd rfl he
        | tail _ h => exact h
      simpa [selectColumns, vlookup, he] using ih hc'

theorem selectColumns_self (df : Row) (hnd : (df.map Prod.fst).Nodup) :
    selectColumns df (df.map Prod.fst) = df := by
  induction df with
  | nil => rfl
  | cons cv rest ih =>
    obtain ⟨hnotin, hnd'⟩ := List.nodup_cons.mp hnd
    rw [List.map_cons, selectColumns, List.map_cons, vlookup, if_pos rfl]
    have htail : ∀ c ∈ rest.map Prod.fst,
        (c, (vlookup (cv :: rest) c).getD (Val.num 0))
          = (c, (vlookup rest c).getD (Val.num 0)) := by
      intro c hcmem
      have : cv.1 ≠ c := fun h => hnotin (h ▸ hcmem)
      rw [vlookup, if_neg this]
    rw [List.map_congr_left htail]
    have := ih hnd'
    rw [selectColumns] at this
    rw [this, Option.getD_some]

theorem serverEncode_cons (e : String × List String) (es : List (String × List String))
    (df : Row) :
    serverEncode (e :: es) df
      = serverEncode es (if (vlookup df e.1).isSome then
          df.map fun cv =>
            if cv.1 = e.1
            then (cv.1, Val.num ((encodeGuarded e.2 (astypeStr cv.2) : ℤ) : ℚ))
            else cv
        else df) := rfl

theorem serverEncode_eq_map (encs : List (String × List String)) (df : Row)
    (hnd : (encs.map Prod.fst).Nodup) :
    serverEncode encs df = df.map fun cv => (cv.1, encodeCellByLookup encs cv.1 cv.2) := by
  induction encs generalizing df with
  | nil =>
    simp [serverEncode, encodeCellByLookup, vlookup]
  | cons e es ih =>
    obtain ⟨hne, hnd'⟩ := List.nodup_cons.mp hnd
    have hne' : e.1 ∉ es.map Prod.fst := by
      intro hmem
      exact hne (by simpa using hmem)
    rw [serverEncode_cons]
    by_cases hp : (vlookup df e.1).isSome
    · rw [if_pos hp, ih _ hnd', List.map_map]
      refine List.map_congr_left ?_
      intro cv _
      by_cases hk : cv.1 = e.1
      · have hnone : vlookup es cv.1 = none := by
          rw [vlookup_eq_none_iff, hk]
          exact hne'
        rw [hk] at hnone
        simp [Function.comp_def, hk, encodeCellByLookup, hnone, vlookup]
      · have hl : vlookup (e :: es) cv.1 = vlookup es cv.1 := by
          rw [vlookup, if_neg fun h => hk h.symm]
        simp [Function.comp_def, hk, encodeCellByLookup, hl]
    · rw [if_neg hp, ih df hnd']
      refine List.map_congr_left ?_
      intro cv hcv
      have hk : cv.1 ≠ e.1 := by
        intro h
        exact hp (h ▸ vlookup_isSome_of_mem hcv)
      have hl : vlookup (e :: es) cv.1 = vlookup es cv.1 := by
        rw [vlookup, if_neg fun h => hk h.symm]
      simp [encodeCellByLookup, hl]

/-- The serving-side encoding loop never changes the column names or
their order. -/
theorem serverEncode_keys (encs : List (String × List String)) (df : Row) :
    (serverEncode encs df).map Prod.fst = df.map Prod.fst := by
  induction encs generalizing df with
  | nil => rfl
  | cons e es ih =>
    rw [serverEncode_cons]
    by_cases hp : (vlookup df e.1).isSome
    · rw [if_pos hp, ih, List.map_map]
      refine List.map_congr_left ?_
      intro cv _
      by_cases hk : cv.1 = e.1 <;> simp [Function.comp_def, hk]
    · rw [if_neg hp, ih]

theorem rowToDF_keys (r : Row) : (rowToDF r).map Prod.fst = r.map Prod.fst := by
  simp [rowToDF, List.map_map, Function.comp_def]

/-- The training-side inference encoding, restricted to a one-row
frame, acts cellwise: numeric cells are skipped (their column would not
be in `select_dtypes(["object","bool"])`), other cells go through the
per-cell lookup-and-encode. -/
theorem encodeInfer_rowToDF (encs : List (String × List String)) (input : Row) :
    encodeInfer encs (rowToDF input)
      = rowToDF (input.map fun cv =>
          if cv.2.isNum then cv else (cv.1, encodeCellByLookup encs cv.1 cv.2)) := by
  rw [rowToDF, rowToDF, encodeInfer, List.map_map, List.map_map]
  refine List.map_congr_left ?_
  intro cv _
  by_cases hn : cv.2.isNum
  · have hcat : isCategorical [cv.2] = false := by simp [isCategorical, hn]
    simp [Function.comp_def, hcat, hn]
  · have hcat : isCategorical [cv.2] = true := by simp [isCategorical, hn]
    cases hl : vlookup encs cv.1 with
    | some classes => simp [Function.comp_def, hcat, hn, hl, encodeCellByLookup]
    | none => simp [Function.comp_def, hcat, hn, hl, encodeCellByLookup]

/-- On a frame containing neither a dropped column nor the target
column, `preprocess`'s column selection is the identity and no target
is extracted. -/
theorem featureSplit_id (df : DF)
    (hdrop : ∀ c ∈ df.map Prod.fst, c ∉ drop_cols)
    (htarget : target_column ∉ df.map Prod.fst) :
    featureSplit df = (df, none) := by
  have hfilter : df.filter (fun c => !(decide (c.1 ∈ drop_cols))) = df := by
    rw [List.filter_eq_self]
    intro a ha
    simp [hdrop a.1 (List.mem_map_of_mem Prod.fst ha)]
  have hnone : vlookup df target_column = none :=
    (vlookup_eq_none_iff df target_column).mpr htarget
  simp [featureSplit, hfilter, hnone]

/-- C2: for a single observation whose fields match the training schema
— its keys are exactly `feature_columns` in order (duplicate-free, not
containing a dropped or target column, as any fitted state has), and
every column that carries an encoder holds a non-numeric (string or
boolean) value, as it did at training time — the server's
`preprocess_input` and the trainer's `preprocess(…, fit=False)` with
the same fitted encoders, scaler statistics and feature columns produce
exactly the same scaled numeric feature vector. -/
theorem C2_train_serve_equivalence (input : Row) (st : FitState) (stats : List (ℚ × ℚ))
    (hkeys : input.map Prod.fst = st.feature_columns)
    (hnd : st.feature_columns.Nodup)
    (hencnd : (st.label_encoders.map Prod.fst).Nodup)
    (hdrop : ∀ c ∈ st.feature_columns, c ∉ drop_cols)
    (htarget : target_column ∉ st.feature_columns)
    (henc : ∀ cv ∈ input, (vlookup st.label_encoders cv.1).isSome → cv.2.isNum = false) :
    preprocess_input input st stats
      = scalerTransform stats (preprocessInfer st (rowToDF input)).1 := by
  have hpres : ∀ c ∈ st.feature_columns, (vlookup input c).isSome := by
    intro c hc
    rw [vlookup_isSome_iff, hkeys]
    exact hc
  have h1 : ensureColumns input st.feature_columns = input :=
    ensureColumns_of_present _ _ hpres
  have h2 : selectColumns input st.feature_columns = input := by
    rw [← hkeys]
    exact selectColumns_self input (by rw [hkeys]; exact hnd)
  have h3 : featureSplit (rowToDF input) = (rowToDF input, none) := by
    refine featureSplit_id _ ?_ ?_
    · rw [rowToDF_keys, hkeys]
      exact hdrop
    · rw [rowToDF_keys, hkeys]
      exact htarget
  have h4 : rowToDF (serverEncode st.label_encoders input)
      = encodeInfer st.label_encoders (rowToDF input) := by
    rw [serverEncode_eq_map _ _ hencnd, encodeInfer_rowToDF, rowToDF, rowToDF,
      List.map_map, List.map_map]
    refine List.map_congr_left ?_
    intro cv hcv
    cases hl : vlookup st.label_encoders cv.1 with
    | none => simp [Function.comp_def, encodeCellByLookup, hl]
    | some classes =>
      have hn : cv.2.isNum = false := henc cv hcv (by rw [hl]; rfl)
      simp [Function.comp_def, encodeCellByLookup, hl, hn]
  rw [preprocess_input, h1, h2, h4]
  have h5 : (preprocessInfer st (rowToDF input)).1
      = encodeInfer st.label_encoders (featureSplit (rowToDF input)).1 := rfl
  rw [h5, h3]

/-- Witness for `C2_train_serve_equivalence`: a two-column artifact
(one encoded string column, one numeric column) and a matching request
containing an unseen leaf color. -/
theorem C2_train_serve_equivalence_witness :
    preprocess_input [("leaf_color", Val.str "Purple"), ("plant_age_days", Val.num 30)]
        ⟨[("leaf_color", ["Green", "Yellow"])], ["leaf_color", "plant_age_days"]⟩
        [(0, 1), (40, 7)]
      = scalerTransform [(0, 1), (40, 7)]
          (preprocessInfer
            ⟨[("leaf_color", ["Green", "Yellow"])], ["leaf_color", "plant_age_days"]⟩
            (rowToDF [("leaf_color", Val.str "Purple"), ("plant_age_days", Val.num 30)])).1 :=
  C2_train_serve_equivalence
    [("leaf_color", Val.str "Purple"), ("plant_age_days", Val.num 30)]
    ⟨[("leaf_color", ["Green", "Yellow"])], ["leaf_color", "plant_age_days"]⟩
    [(0, 1), (40, 7)]
    (by decide) (by decide) (by decide) (by decide) (by decide) (by decide)

/-- C3: an inference input that carries, in an encoded feature column,
a categorical value absent from that column's training vocabulary is
mapped to the sentinel −1 by the encoding step, on both
implementations, and neither raises: on the server the `ValueError` of
`encoder.transform` is caught and the cell is set to −1 (the encoded
frame really holds −1 at that column), and the trainer's `fit=False`
guard returns −1 directly. -/
theorem C3_unseen_value_sentinel (input : Row) (st : FitState) (c : String) (v : Val)
    (classes : List String)
    (hin : vlookup input c = some v)
    (hc : c ∈ st.feature_columns)
    (hcls : vlookup st.label_encoders c = some classes)
    (hencnd : (st.label_encoders.map Prod.fst).Nodup)
    (hnum : v.isNum = false)
    (hunseen : astypeStr v ∉ classes) :
    vlookup (serverEncode st.label_encoders
        (selectColumns (ensureColumns input st.feature_columns) st.feature_columns)) c
        = some (Val.num (-1))
      ∧ encodeGuarded classes (astypeStr v) = -1 := by
  have hd1 : vlookup (ensureColumns input st.feature_columns) c = some v :=
    ensureColumns_preserves_some _ _ hin
  have hd2 : vlookup (selectColumns (ensureColumns input st.feature_columns)
      st.feature_columns) c = some v := by
    rw [vlookup_selectColumns _ _ hc, hd1, Option.getD_some]
  constructor
  · rw [serverEncode_eq_map _ _ hencnd, vlookup_map_valued
      (fun c v => encodeCellByLookup st.label_encoders c v), hd2, Option.map_some']
    simp [encodeCellByLookup, hcls, encodeGuarded, hunseen]
  · rw [encodeGuarded, if_neg hunseen]

/-- Witness for `C3_unseen_value_sentinel`: the unseen value
`"Purple"` in the `leaf_color` column of a fitted Green/Yellow encoder
encodes to −1. -/
theorem C3_unseen_value_sentinel_witness :
    vlookup
        (serverEncode [("leaf_color", ["Green", "Yellow"])]
          (selectColumns
            (ensureColumns [("leaf_color", Val.str "Purple"), ("plant_age_days", Val.num 30)]
              ["leaf_color", "plant_age_days"])
            ["leaf_color", "plant_age_days"]))
        "leaf_color"
        = some (Val.num (-1))
      ∧ encodeGuarded ["Green", "Yellow"] (astypeStr (Val.str "Purple")) = -1 :=
  C3_unseen_value_sentinel
    [("leaf_color", Val.str "Purple"), ("plant_age_days", Val.num 30)]
    ⟨[("leaf_color", ["Green", "Yellow"])], ["leaf_color", "plant_age_days"]⟩
    "leaf_color" (Val.str "Purple") ["Green", "Yellow"]
    (by decide) (by decide) (by decide) (by decide) (by decide) (by decide)

/-- C6: every fitted feature column missing from the input mapping is
synthesized with numeric value 0 in the frame handed to the encoding
step, and both that frame and the encoded frame list their columns in
exactly the `feature_columns` order captured at training time. -/
theorem C6_missing_zero_and_order (input : Row) (st : FitState) (c : String)
    (hc : c ∈ st.feature_columns) (hmiss : vlookup input c = none) :
    (selectColumns (ensureColumns input st.feature_columns) st.feature_columns).map Prod.fst
        = st.feature_columns
      ∧ vlookup (selectColumns (ensureColumns input st.feature_columns) st.feature_columns) c
          = some (Val.num 0)
      ∧ (serverEncode st.label_encoders
          (selectColumns (ensureColumns input st.feature_columns)
            st.feature_columns)).map Prod.fst
          = st.feature_columns := by
  refine ⟨selectColumns_keys _ _, ?_, ?_⟩
  · rw [vlookup_selectColumns _ _ hc, ensureColumns_lookup_missing _ _ hmiss hc,
      Option.getD_some]
  · rw [serverEncode_keys, selectColumns_keys]

/-- Witness for `C6_missing_zero_and_order`: a request lacking
`plant_age_days` gets that column synthesized as 0, in training order. -/
theorem C6_missing_zero_and_order_witness :
    (selectColumns (ensureColumns [("leaf_color", Val.str "Green")]
        ["leaf_color", "plant_age_days"]) ["leaf_color", "plant_age_days"]).map Prod.fst
        = ["leaf_color", "plant_age_days"]
      ∧ vlookup (selectColumns (ensureColumns [("leaf_color", Val.str "Green")]
          ["leaf_color", "plant_age_days"]) ["leaf_color", "plant_age_days"]) "plant_age_days"
          = some (Val.num 0)
      ∧ (serverEncode [("leaf_color", ["Green", "Yellow"])]
          (selectColumns (ensureColumns [("leaf_color", Val.str "Green")]
            ["leaf_color", "plant_age_days"]) ["leaf_color", "plant_age_days"])).map Prod.fst
          = ["leaf_color", "plant_age_days"] :=
  C6_missing_zero_and_order [("leaf_color", Val.str "Green")]
    ⟨[("leaf_color", ["Green", "Yellow"])], ["leaf_color", "plant_age_days"]⟩
    "plant_age_days" (by decide) (by decide)

/-- C7: when `preprocess` runs without fitting and meets an object/bool
column whose name has no stored encoder, the encoding step leaves that
column untouched — its raw values are handed on, unchanged, to the
scaling step (the first component of `preprocessInfer` is exactly what
`self.scaler.transform` receives), and nothing raises. -/
theorem C7_missing_encoder_passthrough (st : FitState) (df : DF) (i : ℕ)
    (h : i < (featureSplit df).1.length)
    (hcat : isCategorical ((featureSplit df).1.get ⟨i, h⟩).2 = true)
    (hmiss : vlookup st.label_encoders ((featureSplit df).1.get ⟨i, h⟩).1 = none) :
    (preprocessInfer st df).1.get? i = some ((featureSplit df).1.get ⟨i, h⟩) := by
  have h0 : (preprocessInfer st df).1 = encodeInfer st.label_encoders (featureSplit df).1 := rfl
  rw [h0, encodeInfer, List.get?_map, List.get?_eq_get h, Option.map_some']
  rw [List.get_eq_getElem] at hcat hmiss
  simp [hcat, hmiss]

/-- Witness for `C7_missing_encoder_passthrough`: a state with no
stored encoders leaves the string column `leaf_color` unchanged. -/
theorem C7_missing_encoder_passthrough_witness :
    (preprocessInfer ⟨[], ["leaf_color"]⟩ [("leaf_color", [Val.str "Green"])]).1.get? 0
      = some ((featureSplit [("leaf_color", [Val.str "Green"])]).1.get ⟨0, by decide⟩) :=
  C7_missing_encoder_passthrough ⟨[], ["leaf_color"]⟩ [("leaf_color", [Val.str "Green"])] 0
    (by decide) (by decide) (by decide)

/-- C8: while the model artifact is not loaded, both the predict
operation and the disease enumeration fail with the
artifact-not-initialized error — the spec's ServiceUnavailable kind,
realized by the code as `HTTPException(500, "Model not loaded")` — and
no prediction is ever returned. -/
theorem C8_unavailable_without_model (treatments : List (String × TreatmentInfo))
    (input : Row) (now : String) :
    predict_disease none treatments input now
        = Except.error ⟨500, "Model not loaded"⟩
      ∧ get_diseases none = Except.error ⟨500, "Model not loaded"⟩
      ∧ ∀ resp, predict_disease none treatments input now ≠ Except.ok resp := by
  refine ⟨rfl, rfl, ?_⟩
  intro resp h
  exact nomatch h

/-- C9: augmenting a 100-row dataset to target size 150 writes an
output dataset of exactly 150 rows whose first 100 rows are the input
rows, unchanged and in the same order, whatever the random draws. -/
theorem C9_augment_100_to_150 (df : List Sample) (rand : ℕ → AugRand)
    (h : df.length = 100) :
    augment_dataset df 150 rand ≠ none
      ∧ ((augment_dataset df 150 rand).getD []).length = 150
      ∧ ((augment_dataset df 150 rand).getD []).take 100 = df := by
  have hlt : ¬ df.length ≥ 150 := by
    rw [h]
    decide
  have hout : augment_dataset df 150 rand
      = some (df ++ (List.range (150 - df.length)).map fun i =>
          augmentOne df.length i (df.getD ((rand i).baseIdx % df.length) default) (rand i)) := by
    rw [augment_dataset, if_neg hlt]
  refine ⟨by rw [hout]; exact Option.some_ne_none _, ?_, ?_⟩
  · rw [hout, Option.getD_some, List.length_append, List.length_map, List.length_range, h]
  · rw [hout, Option.getD_some, ← h, List.take_left]

/-- Witness for `C9_augment_100_to_150`: one hundred copies of
`sampleA` and the constant random oracle. -/
theorem C9_augment_100_to_150_witness :
    augment_dataset (List.replicate 100 sampleA) 150
        (fun _ => ⟨0, "2024-06-01T00:00:00", 0, 0, 0, 0, 0, 0, 0⟩) ≠ none
      ∧ ((augment_dataset (List.replicate 100 sampleA) 150
          (fun _ => ⟨0, "2024-06-01T00:00:00", 0, 0, 0, 0, 0, 0, 0⟩)).getD []).length = 150
      ∧ ((augment_dataset (List.replicate 100 sampleA) 150
          (fun _ => ⟨0, "2024-06-01T00:00:00", 0, 0, 0, 0, 0, 0, 0⟩)).getD []).take 100
          = List.replicate 100 sampleA :=
  C9_augment_100_to_150 (List.replicate 100 sampleA)
    (fun _ => ⟨0, "2024-06-01T00:00:00", 0, 0, 0, 0, 0, 0, 0⟩)
    (List.length_replicate 100 sampleA)

/-- C10: every generated sample whose disease label is `"Healthy"` has
no lesions — `lesion_present` is false, `lesion_count` is 0,
`spot_size_mm` is 0.0 — and severity `"None"`. -/
theorem C10_healthy_samples_have_no_lesions (sample_id : ℕ) (r : GenRand)
    (h : (generate_sample sample_id r).label_disease = "Healthy") :
    (generate_sample sample_id r).lesion_present = false
      ∧ (generate_sample sample_id r).lesion_count = 0
      ∧ (generate_sample sample_id r).spot_size_mm = 0
      ∧ (generate_sample sample_id r).severity = "None" := by
  by_cases hh : genDisease r = "Healthy"
  · rw [generate_sample, if_pos hh]
    exact ⟨rfl, rfl, rfl, rfl⟩
  · rw [generate_sample, if_neg hh] at h
    exact absurd h hh

/-- Witness for `C10_healthy_samples_have_no_lesions`: the all-zero
draw picks Tomato and its first listed disease, `"Healthy"`. -/
theorem C10_healthy_samples_have_no_lesions_witness :
    (generate_sample 1 ⟨0, 0, "2024-01-01", 0, 0, 0, 0, 0, 0, 0, 0, 0, 0, 0, 0, 0⟩).lesion_present
        = false
      ∧ (generate_sample 1
          ⟨0, 0, "2024-01-01", 0, 0, 0, 0, 0, 0, 0, 0, 0, 0, 0, 0, 0⟩).lesion_count = 0
      ∧ (generate_sample 1
          ⟨0, 0, "2024-01-01", 0, 0, 0, 0, 0, 0, 0, 0, 0, 0, 0, 0, 0⟩).spot_size_mm = 0
      ∧ (generate_sample 1
          ⟨0, 0, "2024-01-01", 0, 0, 0, 0, 0, 0, 0, 0, 0, 0, 0, 0, 0⟩).severity = "None" :=
  C10_healthy_samples_have_no_lesions 1
    ⟨0, 0, "2024-01-01", 0, 0, 0, 0, 0, 0, 0, 0, 0, 0, 0, 0, 0⟩ (by decide)

/-- Witness for `C8_unavailable_without_model` at the empty treatment
table and empty request body. -/
theorem C8_unavailable_without_model_witness :
    predict_disease none [] [] "" = Except.error ⟨500, "Model not loaded"⟩
      ∧ get_diseases none = Except.error ⟨500, "Model not loaded"⟩
      ∧ ∀ resp, predict_disease none [] [] "" ≠ Except.ok resp :=
  C8_unavailable_without_model [] [] ""

end AgroSense
